import Mathlib

/-!
Shallow embedding of the moltbot credential/session core
(src/서버: auth/jwt_handler.py, auth/password.py, security/rate_limiter.py,
api/auth_routes.py, database/models.py, config.py) together with theorems
settling the frozen claims about it.

Time is modelled in whole seconds (`Nat`); `datetime.utcnow()` becomes an
explicit `now : Nat` parameter at each call site that reads the clock.
-/

namespace Moltbot

/-! ### Configuration (config.py defaults) -/

/-- `ServerSettings.access_token_expire_minutes` default (config.py line 29). -/
def access_token_expire_minutes : Nat := 30

/-- `ServerSettings.refresh_token_expire_days` default (config.py line 30). -/
def refresh_token_expire_days : Nat := 7

/-! ### JWT layer (auth/jwt_handler.py)

A signed token is modelled as its decoded claim set plus a flag recording
whether its signature verifies against the process signing key
(`settings.secret_key`); `jose.jwt.encode` is deterministic for a fixed key,
so structural equality of `JwtToken` models byte-for-byte equality of the
encoded strings. -/

/-- The claims `create_access_token` / `create_refresh_token` embed, plus
`sigValid`, which models whether the token's signature checks out against
the server signing key. -/
structure JwtToken where
  sub : String
  exp : Nat
  iat : Nat
  type : String
  jti : Option String
  sigValid : Bool
deriving DecidableEq, Repr

/-- `TokenPayload` pydantic model (jwt_handler.py lines 18-24). -/
structure TokenPayload where
  sub : String
  exp : Nat
  iat : Nat
  type : String
  jti : Option String
deriving DecidableEq, Repr

/-- `TokenPair` pydantic model (jwt_handler.py lines 27-32). -/
structure TokenPair where
  access_token : JwtToken
  refresh_token : JwtToken
  token_type : String
  expires_in : Nat
deriving DecidableEq, Repr

/-- `create_access_token` (jwt_handler.py lines 35-66) with
`additional_claims = None`: expiry is `now` plus the given delta, defaulting
to `access_token_expire_minutes` minutes; the type claim is `"access"` and
no `jti` is embedded. The token is signed with the server key. -/
def create_access_token (subject : Nat) (now : Nat)
    (expires_delta : Option Nat := none) : JwtToken :=
  { sub := toString subject
    exp := now + expires_delta.getD (access_token_expire_minutes * 60)
    iat := now
    type := "access"
    jti := none
    sigValid := true }

/-- `create_refresh_token` (jwt_handler.py lines 69-98): expiry defaults to
`refresh_token_expire_days` days; the type claim is `"refresh"` and a fresh
random hex `jti` (passed in here, since `secrets.token_hex` is a random
source) is embedded. -/
def create_refresh_token (subject : Nat) (now : Nat) (jti : String)
    (expires_delta : Option Nat := none) : JwtToken :=
  { sub := toString subject
    exp := now + expires_delta.getD (refresh_token_expire_days * 86400)
    iat := now
    type := "refresh"
    jti := some jti
    sigValid := true }

/-- `create_token_pair` (jwt_handler.py lines 101-118). -/
def create_token_pair (subject : Nat) (now : Nat) (jti : String) : TokenPair :=
  { access_token := create_access_token subject now
    refresh_token := create_refresh_token subject now jti
    token_type := "bearer"
    expires_in := access_token_expire_minutes * 60 }

/-- `verify_token` (jwt_handler.py lines 121-146). `jose.jwt.decode` checks
the signature and the `exp` claim (a token is expired when `exp < now`,
zero leeway) and raises `JWTError` on either failure, which the
`try/except` turns into `None`; then the function itself returns `None` on
a type-claim mismatch, else the payload. -/
def verify_token (token : JwtToken) (now : Nat)
    (token_type : String := "access") : Option TokenPayload :=
  if token.sigValid = false then none
  else if token.exp < now then none
  else if token.type ≠ token_type then none
  else some { sub := token.sub, exp := token.exp, iat := token.iat
              type := token.type, jti := token.jti }

/-! ### Rate limiter (security/rate_limiter.py) -/

/-- The `meta` dict built by `RateLimiter.is_allowed`. -/
structure RateMeta where
  limit : Nat
  remaining : Nat
  reset : Nat
deriving DecidableEq, Repr

/-- `RateLimiter` state: `requests`/`window` configuration and the
`_storage` defaultdict mapping keys to timestamp lists (missing key =
empty list). -/
structure RateLimiter where
  requests : Nat
  window : Nat
  storage : String → List Nat

/-- Body of `_clean_old_requests` (rate_limiter.py lines 30-36): keep the
timestamps `t` with `current_time - t < window`. (With `Nat` subtraction a
timestamp in the future gives `0 < window`, kept, matching the float
comparison.) -/
def cleanList (window : Nat) (now : Nat) (l : List Nat) : List Nat :=
  l.filter (fun t => now - t < window)

/-- `_clean_old_requests` (rate_limiter.py lines 30-36). -/
def RateLimiter.cleanOldRequests (rl : RateLimiter) (key : String)
    (now : Nat) : RateLimiter :=
  { rl with storage := fun k =>
      if k = key then cleanList rl.window now (rl.storage k) else rl.storage k }

/-- `RateLimiter.is_allowed` (rate_limiter.py lines 38-65): prune, count,
deny with the meta if `count >= requests`, else record `now` and admit with
`remaining - 1`. -/
def RateLimiter.is_allowed (rl : RateLimiter) (key : String) (now : Nat) :
    (Bool × RateMeta) × RateLimiter :=
  let rl1 := rl.cleanOldRequests key now
  let current_count := (rl1.storage key).length
  let remaining := rl.requests - current_count
  let meta : RateMeta :=
    { limit := rl.requests, remaining := remaining, reset := now + rl.window }
  if rl.requests ≤ current_count then
    ((false, meta), rl1)
  else
    ((true, { meta with remaining := remaining - 1 }),
     { rl1 with storage := fun k =>
         if k = key then rl1.storage k ++ [now] else rl1.storage k })

/-- `RateLimiter.reset` (rate_limiter.py lines 67-69). -/
def RateLimiter.resetKey (rl : RateLimiter) (key : String) : RateLimiter :=
  { rl with storage := fun k => if k = key then [] else rl.storage k }

/-- A fresh limiter as built by `RateLimiter.__init__`. -/
def RateLimiter.mk0 (requests : Nat := 100) (window : Nat := 60) : RateLimiter :=
  { requests := requests, window := window, storage := fun _ => [] }

/-! ### Persistent records (database/models.py)

Only the columns the auth routes read or write are carried. -/

/-- `User` ORM model (models.py): security-relevant columns. -/
structure User where
  id : Nat
  email : String
  username : String
  hashed_password : String
  failed_login_attempts : Nat
  locked_until : Option Nat
  last_login : Option Nat
deriving DecidableEq, Repr

/-- `Session` ORM model (models.py): one refresh-token row. `is_active`
defaults to `true` and `revoked_at` to `NULL` on insert. -/
structure Session where
  user_id : Nat
  refresh_token : JwtToken
  expires_at : Nat
  client_ip : Option String
  user_agent : Option String
  is_active : Bool
  revoked_at : Option Nat
deriving DecidableEq, Repr

/-- The database state the auth routes touch: the `users` and `sessions`
tables, as ordered row lists (`query(...).first()` returns the first
matching row). -/
structure ServerState where
  users : List User
  sessions : List Session
deriving DecidableEq, Repr

/-- The `HTTPException(status_code=..., detail=...)` payload a route raises. -/
structure HTTPError where
  status_code : Nat
  detail : String
deriving DecidableEq, Repr

/-- `MessageResponse` schema (auth_routes.py lines 44-46). -/
structure MessageResponse where
  message : String
deriving DecidableEq, Repr

/-- `db.query(User).filter((User.email == ident) | (User.username == ident)).first()`
(auth_routes.py lines 117-119). -/
def findUser (users : List User) (ident : String) : Option User :=
  users.find? (fun u => u.email == ident || u.username == ident)

/-- SQLAlchemy mutating the `User` row found by the query and committing:
the row with that primary key is replaced. -/
def updateUser (users : List User) (u : User) : List User :=
  users.map (fun v => if v.id = u.id then u else v)

/-- Mutating the first row a `.first()` query returned: replace the first
element satisfying `p` by its image under `f`, leaving the rest alone. -/
def updateFirst (p : α → Bool) (f : α → α) : List α → List α
  | [] => []
  | x :: xs => if p x then f x :: xs else x :: updateFirst p f xs

/-! ### Auth routes (api/auth_routes.py)

Each route is a function of the request data, the database state and the
sources the code reads ambiently: the clock (`now`) and the random `jti`
that `create_refresh_token` draws. The password check is the
`verify_password` call, passed in as `verifyPw` (its bcrypt internals are
modelled separately below). -/

/-- The uniform bad-credentials 401 of the login route
(auth_routes.py lines 121-125 and 146-149: identical in both branches). -/
def invalidCredentialsError : HTTPError :=
  { status_code := 401, detail := "아이디 또는 비밀번호가 올바르지 않습니다" }

/-- The 403 raised while an account lockout is in force
(auth_routes.py lines 128-132). -/
def accountLockedError : HTTPError :=
  { status_code := 403, detail := "계정이 일시적으로 잠겼습니다. 나중에 다시 시도하세요." }

/-- The 401 for a refresh token failing `verify_token`
(auth_routes.py lines 188-192). -/
def invalidRefreshTokenError : HTTPError :=
  { status_code := 401, detail := "유효하지 않은 리프레시 토큰입니다" }

/-- The 401 for a refresh token with no active session — `SessionExpired`
(auth_routes.py lines 200-204). -/
def sessionExpiredError : HTTPError :=
  { status_code := 401, detail := "세션이 만료되었습니다. 다시 로그인하세요." }

/-- `login` (auth_routes.py lines 105-173). Steps, in source order: find
the user by email-or-username; 401 if absent; 403 if `locked_until` is set
and in the future; on a failed password check increment
`failed_login_attempts`, lock for 30 minutes once the counter reaches 5,
commit, 401; on success zero the counter, clear the lock, stamp
`last_login`, mint a token pair and insert a session row whose
`expires_at` is `datetime.utcnow()` (the source's TODO placeholder). -/
def login (verifyPw : String → String → Bool) (now : Nat) (jti : String)
    (st : ServerState) (ident password : String)
    (client_ip user_agent : Option String) :
    Except HTTPError TokenPair × ServerState :=
  match findUser st.users ident with
  | none => (.error invalidCredentialsError, st)
  | some user =>
    if user.locked_until.isSome ∧ now < user.locked_until.getD 0 then
      (.error accountLockedError, st)
    else if verifyPw password user.hashed_password = false then
      let attempts := user.failed_login_attempts + 1
      let user' : User :=
        { user with
          failed_login_attempts := attempts
          locked_until :=
            if 5 ≤ attempts then some (now + 30 * 60) else user.locked_until }
      (.error invalidCredentialsError, { st with users := updateUser st.users user' })
    else
      let user' : User :=
        { user with
          failed_login_attempts := 0
          locked_until := none
          last_login := some now }
      let pair := create_token_pair user.id now jti
      let sess : Session :=
        { user_id := user.id
          refresh_token := pair.refresh_token
          expires_at := now
          client_ip := client_ip
          user_agent := user_agent
          is_active := true
          revoked_at := none }
      (.ok pair, { users := updateUser st.users user', sessions := st.sessions ++ [sess] })

/-- `refresh_token` route (auth_routes.py lines 176-224): verify the token
with expected type `"refresh"` (401 otherwise); look up the first active
session row holding that token (401 `SessionExpired` if none); deactivate
it and stamp `revoked_at`; mint a new pair for `payload.sub` and insert a
new active session row carrying the old row's `client_ip`/`user_agent`,
again with the placeholder `expires_at = utcnow()`. -/
def refreshRoute (now : Nat) (jti : String) (st : ServerState)
    (token : JwtToken) : Except HTTPError TokenPair × ServerState :=
  match verify_token token now "refresh" with
  | none => (.error invalidRefreshTokenError, st)
  | some payload =>
    match st.sessions.find? (fun s => s.refresh_token == token && s.is_active) with
    | none => (.error sessionExpiredError, st)
    | some sess =>
      let subNat := payload.sub.toNat?.getD 0
      let pair := create_token_pair subNat now jti
      let newSess : Session :=
        { user_id := subNat
          refresh_token := pair.refresh_token
          expires_at := now
          client_ip := sess.client_ip
          user_agent := sess.user_agent
          is_active := true
          revoked_at := none }
      let revoked :=
        updateFirst (fun s => s.refresh_token == token && s.is_active)
          (fun s => { s with is_active := false, revoked_at := some now })
          st.sessions
      (.ok pair, { st with sessions := revoked ++ [newSess] })

/-- `logout` (auth_routes.py lines 227-246): find the first session row
with the given token (active or not); if present, deactivate it and stamp
`revoked_at := now`; either way answer 200 with the same message. -/
def logoutRoute (now : Nat) (st : ServerState) (token : JwtToken) :
    MessageResponse × ServerState :=
  match st.sessions.find? (fun s => s.refresh_token == token) with
  | none => ({ message := "로그아웃되었습니다" }, st)
  | some _ =>
    let revoked :=
      updateFirst (fun s => s.refresh_token == token)
        (fun s => { s with is_active := false, revoked_at := some now })
        st.sessions
    ({ message := "로그아웃되었습니다" }, { st with sessions := revoked })

/-! ### Reachable database states

The sessions table starts empty (fresh deploy) and evolves only through
the three routes. The `jti` drawn for each minted refresh token is
`secrets.token_hex(16)` (128 bits); the sessions table moreover carries a
UNIQUE constraint on `refresh_token` (models.py), so an insert colliding
with a stored token cannot commit. Both are captured by the freshness side
condition on the minting steps. -/

/-- The drawn `jti` collides with no refresh token stored in a session row. -/
def freshJti (st : ServerState) (jti : String) : Prop :=
  ∀ s ∈ st.sessions, s.refresh_token.jti ≠ some jti

instance (st : ServerState) (jti : String) : Decidable (freshJti st jti) :=
  inferInstanceAs (Decidable (∀ s ∈ st.sessions, _ ≠ _))

/-- Database states reachable through the auth routes from an empty
sessions table. -/
inductive Reach : ServerState → Prop
  | init (users : List User) : Reach ⟨users, []⟩
  | login (st : ServerState) (hr : Reach st)
      (verifyPw : String → String → Bool) (now : Nat) (jti : String)
      (ident password : String) (ip ua : Option String)
      (hfresh : freshJti st jti) :
      Reach (login verifyPw now jti st ident password ip ua).2
  | refresh (st : ServerState) (hr : Reach st) (now : Nat) (jti : String)
      (token : JwtToken) (hfresh : freshJti st jti) :
      Reach (refreshRoute now jti st token).2
  | logout (st : ServerState) (hr : Reach st) (now : Nat) (token : JwtToken) :
      Reach (logoutRoute now st token).2

/-! ### Password hashing (auth/password.py)

A Python `str` is modelled as its list of code points (`List Nat`), a byte
string as a list of bytes. `password.encode('utf-8')[:72].decode('utf-8',
errors='ignore')` becomes UTF-8 encoding, a 72-byte prefix, and a decoder
that drops undecodable bytes. The bcrypt backend behind
`passlib.CryptContext(schemes=["bcrypt"])` is an external primitive: it is
a parameter (`BcryptBackend`) holding the salted hash and the comparator,
while the context's dispatch — identifying the hash scheme by its prefix
and raising `ValueError` ("hash could not be identified", passlib's
documented `CryptContext.verify` contract) on an unrecognized hash — is
modelled explicitly, since `verify_password` has no handler for it. -/

/-- UTF-8 encoding of one code point (1-4 bytes). -/
def utf8Enc (c : Nat) : List Nat :=
  if c < 0x80 then [c]
  else if c < 0x800 then [0xC0 + c / 64, 0x80 + c % 64]
  else if c < 0x10000 then [0xE0 + c / 4096, 0x80 + c / 64 % 64, 0x80 + c % 64]
  else [0xF0 + c / 262144, 0x80 + c / 4096 % 64, 0x80 + c / 64 % 64, 0x80 + c % 64]

/-- `str.encode('utf-8')`. -/
def utf8Encode : List Nat → List Nat
  | [] => []
  | c :: cs => utf8Enc c ++ utf8Encode cs

/-- A UTF-8 continuation byte. -/
def isCont (b : Nat) : Bool := 0x80 ≤ b && b < 0xC0

/-- Number of continuation bytes a UTF-8 leader in `[0xC2, 0xF8)` calls
for. -/
def contLen (b : Nat) : Nat := if b < 0xE0 then 1 else if b < 0xF0 then 2 else 3

/-- The code point encoded by a leader and its continuation bytes. -/
def seqVal : Nat → List Nat → Nat
  | b, [c1] => (b - 0xC0) * 64 + (c1 - 0x80)
  | b, [c1, c2] => (b - 0xE0) * 4096 + (c1 - 0x80) * 64 + (c2 - 0x80)
  | b, [c1, c2, c3] =>
      (b - 0xF0) * 262144 + (c1 - 0x80) * 4096 + (c2 - 0x80) * 64 + (c3 - 0x80)
  | _, _ => 0

/-- `bytes.decode('utf-8', errors='ignore')`: scan the byte string,
emitting the code point of each well-formed sequence (an ASCII byte, or a
leader followed by its full run of continuation bytes) and dropping bytes
that cannot head or complete one — stray continuations, truncated tails,
the invalid leaders 0xC0/0xC1 and ≥ 0xF8. CPython's additional overlong
and surrogate rejection is elided; both call sites of the claims run this
identical decoder, so nothing below depends on it. -/
def decodeIgnore (l : List Nat) : List Nat :=
  match l with
  | [] => []
  | b :: rest =>
    if b < 0x80 then b :: decodeIgnore rest
    else if b < 0xC2 then decodeIgnore rest
    else if b < 0xF8 then
      if (rest.take (contLen b)).length = contLen b ∧
          (rest.take (contLen b)).all isCont then
        seqVal b (rest.take (contLen b)) :: decodeIgnore (rest.drop (contLen b))
      else decodeIgnore rest
    else decodeIgnore rest
termination_by l.length
decreasing_by all_goals (simp only [List.length_cons, List.length_drop]; omega)

/-- `password.encode('utf-8')[:72].decode('utf-8', errors='ignore')`
(password.py lines 27 and 43 — the identical expression in
`hash_password` and `verify_password`). -/
def truncate72 (password : List Nat) : List Nat :=
  decodeIgnore ((utf8Encode password).take 72)

/-- The external bcrypt primitive: a salted hash (the salt choice is made
explicit as a parameter) and the scheme's own comparator over secret bytes
and a stored hash string. -/
structure BcryptBackend where
  hash : Nat → List Nat → String
  checkpw : List Nat → String → Bool

/-- passlib identifying whether a stored hash belongs to the context's one
scheme: bcrypt hashes carry a `$2b$`/`$2a$`/`$2y$` prefix. -/
def isBcryptHash (h : String) : Bool :=
  h.toList.take 4 == ['$', '2', 'b', '$'] ||
  h.toList.take 4 == ['$', '2', 'a', '$'] ||
  h.toList.take 4 == ['$', '2', 'y', '$']

/-- `pwd_context.hash(secret)` for the bcrypt-only context of password.py
lines 9-13: the backend hashes the UTF-8 bytes of the secret under a salt
of its choosing. -/
def cryptContextHash (B : BcryptBackend) (salt : Nat) (secret : List Nat) : String :=
  B.hash salt (utf8Encode secret)

/-- `pwd_context.verify(secret, hash)`: if the stored hash is identified
as bcrypt, answer the backend comparator's verdict; otherwise raise
`ValueError` — modelled from passlib's documented contract ("hash could
not be identified"), which password.py does not catch. -/
def cryptContextVerify (B : BcryptBackend) (secret : List Nat) (h : String) :
    Except String Bool :=
  if isBcryptHash h then .ok (B.checkpw (utf8Encode secret) h)
  else .error "hash could not be identified"

/-- `hash_password` (password.py lines 16-28): truncate to the 72-byte
bcrypt limit, then hash. -/
def hash_password (B : BcryptBackend) (salt : Nat) (password : List Nat) : String :=
  cryptContextHash B salt (truncate72 password)

/-- `verify_password` (password.py lines 31-44): the same truncation, then
the context comparator; any exception from the latter propagates. -/
def verify_password (B : BcryptBackend) (plain_password : List Nat)
    (hashed_password : String) : Except String Bool :=
  cryptContextVerify B (truncate72 plain_password) hashed_password

/-! ## Theorems -/

/-- C4: `verify_token` yields no payload on a wrong type claim in both
directions (an access token checked as `"refresh"`, a refresh token
checked as `"access"`), on an invalid signature, and on a passed `exp`;
each failure returns the one uniform value `none`, so the caller cannot
tell the three cases apart. -/
theorem verify_token_uniform_failures
    (sub now n2 : Nat) (d1 d2 : Option Nat) (jti : String)
    (t u w : JwtToken) (ty ty2 ty3 : String)
    (hsig : t.sigValid = false) (hexp : u.exp < n2) (hty : w.type ≠ ty3) :
    verify_token (create_access_token sub now d1) n2 "refresh" = none ∧
    verify_token (create_refresh_token sub now jti d2) n2 "access" = none ∧
    verify_token w n2 ty3 = none ∧
    verify_token t n2 ty = none ∧
    verify_token u n2 ty2 = none := by
  refine ⟨?_, ?_, ?_, ?_, ?_⟩
  · simp [verify_token, create_access_token]
  · simp [verify_token, create_refresh_token]
  · simp [verify_token, hty]
  · simp [verify_token, hsig]
  · simp [verify_token, hexp]

/-- C4 witness: the theorem applied at a concrete instant and concrete
tokens. -/
theorem verify_token_uniform_failures_witness :
    ({ sub := "1", exp := 5, iat := 0, type := "access", jti := none,
       sigValid := true : JwtToken }.exp < 10) ∧
    (verify_token (create_access_token 1 0 none) 10 "refresh" = none ∧
     verify_token (create_refresh_token 1 0 "aa" none) 10 "access" = none ∧
     verify_token { sub := "1", exp := 99, iat := 0, type := "access",
                    jti := none, sigValid := true } 10 "refresh" = none ∧
     verify_token { sub := "1", exp := 99, iat := 0, type := "access",
                    jti := none, sigValid := false } 10 "access" = none ∧
     verify_token { sub := "1", exp := 5, iat := 0, type := "access",
                    jti := none, sigValid := true } 10 "access" = none) :=
  ⟨by decide,
   verify_token_uniform_failures 1 0 10 none none "aa" _ _ _ "access" "access"
     "refresh" (by decide) (by decide) (by decide)⟩

/-- C5: the sliding-window limiter. With `cleaned` the key's timestamps
still inside the window: the admission verdict is exactly
`cleaned.length < requests` computed after pruning; with the window full
(`requests ≤ cleaned.length`) the request is denied, `remaining = 0`, and
the key's history is only pruned, never extended; below the limit the
request is admitted and exactly the one timestamp `now` is appended; every
stored timestamp afterwards is inside the window or is `now`; and the
`limit=3, window=60` scenario runs as the claim says (admit at 0, 1, 2,
deny at 3 with `remaining = 0`, admit again at 61). -/
theorem rate_limiter_sliding_window (rl : RateLimiter) (k : String) (now : Nat) :
    ((rl.is_allowed k now).1.1
      = decide ((cleanList rl.window now (rl.storage k)).length < rl.requests)) ∧
    (rl.requests ≤ (cleanList rl.window now (rl.storage k)).length →
      (rl.is_allowed k now).1.1 = false ∧
      (rl.is_allowed k now).1.2.remaining = 0 ∧
      (rl.is_allowed k now).2.storage k = cleanList rl.window now (rl.storage k)) ∧
    ((cleanList rl.window now (rl.storage k)).length < rl.requests →
      (rl.is_allowed k now).1.1 = true ∧
      (rl.is_allowed k now).2.storage k
        = cleanList rl.window now (rl.storage k) ++ [now]) ∧
    (∀ t ∈ (rl.is_allowed k now).2.storage k, now - t < rl.window ∨ t = now) ∧
    (((RateLimiter.mk0 3 60).is_allowed "k" 0).1.1 = true ∧
     ((((RateLimiter.mk0 3 60).is_allowed "k" 0).2).is_allowed "k" 1).1.1 = true ∧
     (((((RateLimiter.mk0 3 60).is_allowed "k" 0).2).is_allowed "k" 1).2.is_allowed
        "k" 2).1.1 = true ∧
     ((((((RateLimiter.mk0 3 60).is_allowed "k" 0).2).is_allowed "k" 1).2.is_allowed
        "k" 2).2.is_allowed "k" 3).1.1 = false ∧
     ((((((RateLimiter.mk0 3 60).is_allowed "k" 0).2).is_allowed "k" 1).2.is_allowed
        "k" 2).2.is_allowed "k" 3).1.2.remaining = 0 ∧
     (((((((RateLimiter.mk0 3 60).is_allowed "k" 0).2).is_allowed "k" 1).2.is_allowed
        "k" 2).2.is_allowed "k" 3).2.is_allowed "k" 61).1.1 = true) := by
  refine ⟨?_, ?_, ?_, ?_, ?_⟩
  · by_cases h : rl.requests ≤ (cleanList rl.window now (rl.storage k)).length
    · simp [RateLimiter.is_allowed, RateLimiter.cleanOldRequests, h, Nat.not_lt.mpr h]
    · simp [RateLimiter.is_allowed, RateLimiter.cleanOldRequests, h,
        Nat.lt_of_not_le h]
  · intro h
    simp [RateLimiter.is_allowed, RateLimiter.cleanOldRequests, h,
      Nat.sub_eq_zero_of_le h]
  · intro h
    simp [RateLimiter.is_allowed, RateLimiter.cleanOldRequests, Nat.not_le.mpr h]
  · intro t ht
    by_cases h : rl.requests ≤ (cleanList rl.window now (rl.storage k)).length
    · simp [RateLimiter.is_allowed, RateLimiter.cleanOldRequests, h] at ht
      simp [cleanList, List.mem_filter] at ht
      exact Or.inl ht.2
    · simp [RateLimiter.is_allowed, RateLimiter.cleanOldRequests, h] at ht
      rcases ht with ht | ht
      · simp [cleanList, List.mem_filter] at ht
        exact Or.inl ht.2
      · exact Or.inr ht
  · decide

/-- C5 witness: the theorem applied to a concrete limiter state holding a
full window, discharging the hypotheses of its conditional conjuncts. -/
theorem rate_limiter_sliding_window_witness :
    ((({ requests := 2, window := 60,
         storage := fun _ => [5, 7] : RateLimiter }).is_allowed "k" 10).1.1
      = decide ((cleanList 60 10 [5, 7]).length < 2)) ∧
    (2 ≤ (cleanList 60 10 [5, 7]).length) := by
  have h := rate_limiter_sliding_window
    { requests := 2, window := 60, storage := fun _ => [5, 7] } "k" 10
  exact ⟨h.1, by decide⟩

/-- C8: the login route answers a request naming no account and a request
naming an existing, unlocked account with a wrong password with the very
same error value — status 401 and the identical detail string — so the
response content does not reveal whether the account exists. -/
theorem login_uniform_error
    (verifyPw : String → String → Bool) (now : Nat) (jti : String)
    (st : ServerState) (ident1 ident2 pw1 pw2 : String) (ip ua : Option String)
    (h1 : findUser st.users ident1 = none)
    (u : User) (h2 : findUser st.users ident2 = some u)
    (hnl : ¬(u.locked_until.isSome ∧ now < u.locked_until.getD 0))
    (hwrong : verifyPw pw2 u.hashed_password = false) :
    (login verifyPw now jti st ident1 pw1 ip ua).1
      = .error invalidCredentialsError ∧
    (login verifyPw now jti st ident2 pw2 ip ua).1
      = .error invalidCredentialsError := by
  constructor
  · simp [login, h1]
  · simp [login, h2, hnl, hwrong]

/-- C8 witness: a one-account database, an unknown identifier and a wrong
password for the known one. -/
theorem login_uniform_error_witness :
    (login (fun p _ => p == "G") 0 "j"
        ⟨[⟨1, "a@b.c", "alice", "H", 0, none, none⟩], []⟩ "bob" "x" none none).1
      = .error invalidCredentialsError ∧
    (login (fun p _ => p == "G") 0 "j"
        ⟨[⟨1, "a@b.c", "alice", "H", 0, none, none⟩], []⟩ "alice" "x" none none).1
      = .error invalidCredentialsError :=
  login_uniform_error (fun p _ => p == "G") 0 "j"
    ⟨[⟨1, "a@b.c", "alice", "H", 0, none, none⟩], []⟩ "bob" "alice" "x" "x"
    none none (by decide) ⟨1, "a@b.c", "alice", "H", 0, none, none⟩
    (by decide) (by decide) (by decide)

/-- C10: after a lockout window has elapsed, the failure counter is not
reset: on a further wrong-password attempt against an account whose
counter already sits at or above 5, the counter increments (never zeroed)
and a fresh 30-minute lockout is installed immediately. -/
theorem failed_counter_not_reset_after_lockout
    (verifyPw : String → String → Bool) (now : Nat) (jti : String)
    (st : ServerState) (ident pw : String) (ip ua : Option String)
    (u : User) (hu : findUser st.users ident = some u)
    (hcnt : 5 ≤ u.failed_login_attempts)
    (T : Nat) (hlock : u.locked_until = some T) (helapsed : T ≤ now)
    (hwrong : verifyPw pw u.hashed_password = false) :
    (login verifyPw now jti st ident pw ip ua).1
      = .error invalidCredentialsError ∧
    (login verifyPw now jti st ident pw ip ua).2.users
      = updateUser st.users
          { u with failed_login_attempts := u.failed_login_attempts + 1
                   locked_until := some (now + 30 * 60) } := by
  have hnl : ¬(u.locked_until.isSome ∧ now < u.locked_until.getD 0) := by
    rw [hlock]; simp; omega
  have h5 : 5 ≤ u.failed_login_attempts + 1 := Nat.le_succ_of_le hcnt
  constructor
  · simp [login, hu, hnl, hwrong]
  · simp [login, hu, hnl, hwrong, h5]

/-- C10 witness: an account with counter 5 whose lockout expired at 100,
hit again with a wrong password at 200. -/
theorem failed_counter_not_reset_after_lockout_witness :
    (login (fun p _ => p == "G") 200 "j"
        ⟨[⟨1, "a@b.c", "alice", "H", 5, some 100, none⟩], []⟩
        "alice" "x" none none).1 = .error invalidCredentialsError ∧
    (login (fun p _ => p == "G") 200 "j"
        ⟨[⟨1, "a@b.c", "alice", "H", 5, some 100, none⟩], []⟩
        "alice" "x" none none).2.users
      = updateUser [⟨1, "a@b.c", "alice", "H", 5, some 100, none⟩]
          ⟨1, "a@b.c", "alice", "H", 6, some (200 + 30 * 60), none⟩ :=
  failed_counter_not_reset_after_lockout (fun p _ => p == "G") 200 "j"
    ⟨[⟨1, "a@b.c", "alice", "H", 5, some 100, none⟩], []⟩ "alice" "x" none none
    ⟨1, "a@b.c", "alice", "H", 5, some 100, none⟩ (by decide) (by decide)
    100 (by decide) (by decide) (by decide)

/-- C6 (code bug): both session-creating paths store
`expires_at = datetime.utcnow()` — the creation instant itself, flagged
`TODO: 실제 만료 시간` in the source — instead of creation time plus the
refresh token's 7-day TTL. Evaluated concretely: a login at time 1000 and
a rotation at time 2000 store `expires_at` 1000 and 2000, while the claim
requires 1000 + 604800 and 2000 + 604800; the refresh tokens themselves
do expire 604800 seconds after issuance, so the stored rows disagree with
their tokens' real TTL. -/
theorem session_expiry_placeholder_bug :
    ((login (fun _ _ => true) 1000 "j1"
        ⟨[⟨1, "a@b.c", "alice", "H", 0, none, none⟩], []⟩
        "alice" "pw" none none).2.sessions.map Session.expires_at = [1000]) ∧
    ((refreshRoute 2000 "j2"
        (login (fun _ _ => true) 1000 "j1"
          ⟨[⟨1, "a@b.c", "alice", "H", 0, none, none⟩], []⟩
          "alice" "pw" none none).2
        (create_refresh_token 1 1000 "j1")).2.sessions.map Session.expires_at
      = [1000, 2000]) ∧
    ((create_refresh_token 1 1000 "j1").exp
      = 1000 + refresh_token_expire_days * 86400) ∧
    ([1000, 2000]
      ≠ [1000 + refresh_token_expire_days * 86400,
         2000 + refresh_token_expire_days * 86400]) := by
  refine ⟨by decide, by decide, by decide, by decide⟩

/-- C2: five consecutive wrong-password logins against a fresh account
leave it with counter 5 and `locked_until = t5 + 30` minutes; while that
instant lies in the future even the correct password is answered with the
403 lockout error; once it has passed, the correct password logs in,
zeroes the counter and clears `locked_until`. The intermediate database
states are named by the equations `e1`-`e5`. -/
theorem lockout_after_five_failures
    (verifyPw : String → String → Bool) (uid : Nat)
    (email username hpw wrong good : String) (ip ua : Option String)
    (j1 j2 j3 j4 j5 j6 j7 : String) (t1 t2 t3 t4 t5 tL tA : Nat)
    (st1 st2 st3 st4 st5 : ServerState)
    (hwrong : verifyPw wrong hpw = false) (hgood : verifyPw good hpw = true)
    (hL : tL < t5 + 30 * 60) (hA : t5 + 30 * 60 ≤ tA)
    (e1 : st1 = (login verifyPw t1 j1
      ⟨[⟨uid, email, username, hpw, 0, none, none⟩], []⟩ username wrong ip ua).2)
    (e2 : st2 = (login verifyPw t2 j2 st1 username wrong ip ua).2)
    (e3 : st3 = (login verifyPw t3 j3 st2 username wrong ip ua).2)
    (e4 : st4 = (login verifyPw t4 j4 st3 username wrong ip ua).2)
    (e5 : st5 = (login verifyPw t5 j5 st4 username wrong ip ua).2) :
    st5 = ⟨[⟨uid, email, username, hpw, 5, some (t5 + 30 * 60), none⟩], []⟩ ∧
    (login verifyPw tL j6 st5 username good ip ua).1
      = .error accountLockedError ∧
    (login verifyPw tL j6 st5 username wrong ip ua).1
      = .error accountLockedError ∧
    (login verifyPw tA j7 st5 username good ip ua).1
      = .ok (create_token_pair uid tA j7) ∧
    (login verifyPw tA j7 st5 username good ip ua).2.users
      = [⟨uid, email, username, hpw, 0, none, some tA⟩] := by
  have h1 : st1 = ⟨[⟨uid, email, username, hpw, 1, none, none⟩], []⟩ := by
    rw [e1]; simp [login, findUser, updateUser, hwrong]
  have h2 : st2 = ⟨[⟨uid, email, username, hpw, 2, none, none⟩], []⟩ := by
    rw [e2, h1]; simp [login, findUser, updateUser, hwrong]
  have h3 : st3 = ⟨[⟨uid, email, username, hpw, 3, none, none⟩], []⟩ := by
    rw [e3, h2]; simp [login, findUser, updateUser, hwrong]
  have h4 : st4 = ⟨[⟨uid, email, username, hpw, 4, none, none⟩], []⟩ := by
    rw [e4, h3]; simp [login, findUser, updateUser, hwrong]
  have h5 : st5 = ⟨[⟨uid, email, username, hpw, 5, some (t5 + 30 * 60), none⟩], []⟩ := by
    rw [e5, h4]; simp [login, findUser, updateUser, hwrong]
  have hL18 : tL < t5 + 1800 := by omega
  have hA18 : ¬(tA < t5 + 1800) := by omega
  refine ⟨h5, ?_, ?_, ?_, ?_⟩
  · rw [h5]
    simp [login, findUser, hL18]
  · rw [h5]
    simp [login, findUser, hL18]
  · rw [h5]
    simp [login, findUser, hgood, hA18]
  · rw [h5]
    simp [login, findUser, updateUser, hgood, hA18]

/-- C2 witness: the lockout chain run concretely (five wrong passwords at
times 1..5, a correct-password attempt at 100 during the lockout, another
at 2000 after it). -/
theorem lockout_after_five_failures_witness :
    (⟨[⟨1, "a@b.c", "alice", "H", 5, some (5 + 30 * 60), none⟩], []⟩ : ServerState)
      = ⟨[⟨1, "a@b.c", "alice", "H", 5, some (5 + 30 * 60), none⟩], []⟩ ∧
    (login (fun p _ => p == "G") 100 "j6"
        ⟨[⟨1, "a@b.c", "alice", "H", 5, some (5 + 30 * 60), none⟩], []⟩
        "alice" "G" none none).1 = .error accountLockedError ∧
    (login (fun p _ => p == "G") 100 "j6"
        ⟨[⟨1, "a@b.c", "alice", "H", 5, some (5 + 30 * 60), none⟩], []⟩
        "alice" "w" none none).1 = .error accountLockedError ∧
    (login (fun p _ => p == "G") 2000 "j7"
        ⟨[⟨1, "a@b.c", "alice", "H", 5, some (5 + 30 * 60), none⟩], []⟩
        "alice" "G" none none).1 = .ok (create_token_pair 1 2000 "j7") ∧
    (login (fun p _ => p == "G") 2000 "j7"
        ⟨[⟨1, "a@b.c", "alice", "H", 5, some (5 + 30 * 60), none⟩], []⟩
        "alice" "G" none none).2.users
      = [⟨1, "a@b.c", "alice", "H", 0, none, some 2000⟩] :=
  lockout_after_five_failures (fun p _ => p == "G") 1 "a@b.c" "alice" "H"
    "w" "G" none none "j1" "j2" "j3" "j4" "j5" "j6" "j7" 1 2 3 4 5 100 2000
    ⟨[⟨1, "a@b.c", "alice", "H", 1, none, none⟩], []⟩
    ⟨[⟨1, "a@b.c", "alice", "H", 2, none, none⟩], []⟩
    ⟨[⟨1, "a@b.c", "alice", "H", 3, none, none⟩], []⟩
    ⟨[⟨1, "a@b.c", "alice", "H", 4, none, none⟩], []⟩
    ⟨[⟨1, "a@b.c", "alice", "H", 5, some (5 + 30 * 60), none⟩], []⟩
    (by decide) (by decide) (by decide) (by decide)
    (by decide) (by decide) (by decide) (by decide) (by decide)

/-! ### Truncation length bookkeeping for the bcrypt limit -/

/-- Encoding distributes over cons. -/
theorem utf8Encode_cons (c : Nat) (cs : List Nat) :
    utf8Encode (c :: cs) = utf8Enc c ++ utf8Encode cs := rfl

/-- Length of one encoded code point. -/
theorem utf8Enc_length (c : Nat) :
    (utf8Enc c).length
      = if c < 0x80 then 1 else if c < 0x800 then 2
        else if c < 0x10000 then 3 else 4 := by
  unfold utf8Enc
  split
  · simp [*]
  · split
    · simp [*]
    · split <;> simp [*]

/-- A decoded sequence re-encodes to at most one byte more than its
continuation count — i.e. to at most as many bytes as were consumed. -/
theorem seqVal_enc_le (b : Nat) (cs : List Nat) (hb1 : 0xC2 ≤ b) (hb2 : b < 0xF8)
    (hlen : cs.length = contLen b) (hcont : cs.all isCont) :
    (utf8Enc (seqVal b cs)).length ≤ 1 + contLen b := by
  unfold contLen at *
  split at hlen
  · match cs, hlen with
    | [c1], _ =>
      simp [isCont] at hcont
      have h1 : ¬((b - 0xC0) * 64 + (c1 - 0x80) < 0x80) := by omega
      have h2 : (b - 0xC0) * 64 + (c1 - 0x80) < 0x800 := by omega
      simp [seqVal, utf8Enc_length, h1, h2, *]
  · split at hlen
    · match cs, hlen with
      | [c1, c2], _ =>
        simp [isCont] at hcont
        have h3 : (b - 0xE0) * 4096 + (c1 - 0x80) * 64 + (c2 - 0x80) < 0x10000 := by
          omega
        rw [seqVal, utf8Enc_length]
        split
        · simp [*]
        · split
          · simp [*]
          · simp [h3, *]
    · match cs, hlen with
      | [c1, c2, c3], _ =>
        rw [seqVal, utf8Enc_length]
        split
        · simp [*]
        · split
          · simp [*]
          · split <;> simp [*]

/-- Re-encoding what the ignore-errors decoder produced never yields more
bytes than it consumed. -/
theorem utf8Encode_decodeIgnore_length_le (l : List Nat) :
    (utf8Encode (decodeIgnore l)).length ≤ l.length := by
  induction l using decodeIgnore.induct with
  | case1 => simp [decodeIgnore, utf8Encode]
  | case2 b rest h ih =>
    rw [decodeIgnore.eq_def]
    simp only [if_pos h, utf8Encode_cons, List.length_append, List.length_cons]
    have he : (utf8Enc b).length = 1 := by rw [utf8Enc_length]; simp [h]
    omega
  | case3 b rest h1 h2 ih =>
    rw [decodeIgnore.eq_def]
    simp only [if_neg h1, if_pos h2, List.length_cons]
    omega
  | case4 b rest h1 h2 h3 hok ih =>
    rw [decodeIgnore.eq_def]
    simp only [if_neg h1, if_neg h2, if_pos h3, if_pos hok, utf8Encode_cons,
      List.length_append, List.length_cons]
    have hb1 : 0xC2 ≤ b := by omega
    have he := seqVal_enc_le b (rest.take (contLen b)) hb1 h3 hok.1 hok.2
    have hdl : (rest.drop (contLen b)).length = rest.length - contLen b :=
      List.length_drop _ _
    have htl : (rest.take (contLen b)).length ≤ rest.length := by simp
    have hn : contLen b ≤ rest.length := by rw [hok.1] at htl; omega
    omega
  | case5 b rest h1 h2 h3 hok ih =>
    rw [decodeIgnore.eq_def]
    simp only [if_neg h1, if_neg h2, if_pos h3, if_neg hok, List.length_cons]
    omega
  | case6 b rest h1 h2 h3 ih =>
    rw [decodeIgnore.eq_def]
    simp only [if_neg h1, if_neg h2, if_neg h3, List.length_cons]
    omega

/-- The byte string both `hash_password` and `verify_password` feed to the
bcrypt primitive is at most 72 bytes long. -/
theorem truncate72_bytes_le (p : List Nat) :
    (utf8Encode (truncate72 p)).length ≤ 72 := by
  unfold truncate72
  calc (utf8Encode (decodeIgnore ((utf8Encode p).take 72))).length
      ≤ ((utf8Encode p).take 72).length := utf8Encode_decodeIgnore_length_le _
    _ ≤ 72 := by simp

/-- C3: for every password — including those whose UTF-8 form exceeds 72
bytes — and every salt the primitive may draw, hashing then verifying
succeeds, because `hash_password` and `verify_password` apply the identical
truncation and the truncated byte string fits the primitive's 72-byte
limit; and two hashes of the same password under different salts are
distinct strings that both verify. The bcrypt primitive itself is external
(passlib/bcrypt), so its contract enters as hypotheses: its hashes are
self-identifying bcrypt strings (`hid`), it round-trips on secrets of at
most 72 bytes (`hrt`), and distinct salts give distinct hash strings
(`hsalt`). -/
theorem verify_hash_roundtrip (B : BcryptBackend)
    (hid : ∀ s b, isBcryptHash (B.hash s b) = true)
    (hrt : ∀ s b, b.length ≤ 72 → B.checkpw b (B.hash s b) = true)
    (hsalt : ∀ s1 s2 b, s1 ≠ s2 → B.hash s1 b ≠ B.hash s2 b)
    (p : List Nat) (s s1 s2 : Nat) (hs : s1 ≠ s2) :
    verify_password B p (hash_password B s p) = .ok true ∧
    hash_password B s1 p ≠ hash_password B s2 p ∧
    verify_password B p (hash_password B s1 p) = .ok true ∧
    verify_password B p (hash_password B s2 p) = .ok true := by
  have key : ∀ s', verify_password B p (hash_password B s' p) = .ok true := by
    intro s'
    unfold verify_password hash_password cryptContextVerify cryptContextHash
    rw [if_pos (hid s' (utf8Encode (truncate72 p)))]
    rw [hrt s' (utf8Encode (truncate72 p)) (truncate72_bytes_le p)]
  exact ⟨key s, hsalt s1 s2 _ hs, key s1, key s2⟩

/-- A stand-in bcrypt backend used to instantiate the primitive contract
concretely: the "hash" is a bcrypt-prefixed string whose length encodes
the salt, and the comparator accepts everything. -/
def stubBackend : BcryptBackend where
  hash s _ := String.mk ('$' :: '2' :: 'b' :: '$' :: List.replicate s 'x')
  checkpw _ _ := true

/-- The stub backend's hash strings differ whenever the salts differ. -/
theorem stubBackend_hash_injective (s1 s2 : Nat) (b : List Nat) (h : s1 ≠ s2) :
    stubBackend.hash s1 b ≠ stubBackend.hash s2 b := by
  intro heq
  have hdata := congrArg String.data heq
  simp only [stubBackend] at hdata
  have := congrArg List.length hdata
  simp at this
  exact h this

/-- C3 witness: the theorem applied to the stub backend, the password
"hi¡" (three code points) and salts 1, 2. -/
theorem verify_hash_roundtrip_witness :
    verify_password stubBackend [104, 105, 161]
        (hash_password stubBackend 1 [104, 105, 161]) = .ok true ∧
    hash_password stubBackend 1 [104, 105, 161]
      ≠ hash_password stubBackend 2 [104, 105, 161] ∧
    verify_password stubBackend [104, 105, 161]
        (hash_password stubBackend 1 [104, 105, 161]) = .ok true ∧
    verify_password stubBackend [104, 105, 161]
        (hash_password stubBackend 2 [104, 105, 161]) = .ok true :=
  verify_hash_roundtrip stubBackend (fun _ _ => rfl) (fun _ _ _ => rfl)
    stubBackend_hash_injective [104, 105, 161] 1 1 2 (by decide)

/-- C7 counterexample: `verify_password` does not return `false` on a
malformed hash — the passlib context raises `ValueError` ("hash could not
be identified") and password.py has no handler, so the error propagates:
concretely, verifying the password bytes of "hi" against the non-bcrypt
string "notahash" yields the error, not `.ok false`. -/
theorem verify_password_raises_on_malformed :
    verify_password stubBackend [104, 105] "notahash"
      = .error "hash could not be identified" ∧
    ∀ b : Bool, verify_password stubBackend [104, 105] "notahash" ≠ .ok b := by
  constructor
  · rfl
  · intro b h
    rw [show verify_password stubBackend [104, 105] "notahash"
        = .error "hash could not be identified" from rfl] at h
    exact Except.noConfusion h

/-- C7 amended: `verify_password` applies the truncation and hands the
stored hash to the context comparator with no exception handling: on a
hash the context cannot identify as bcrypt it propagates the context's
`ValueError` instead of returning `false`; on an identified bcrypt hash it
returns the comparator's boolean. -/
theorem verify_password_amended (B : BcryptBackend) (p : List Nat) (h : String) :
    (isBcryptHash h = false →
      verify_password B p h = .error "hash could not be identified") ∧
    (isBcryptHash h = true →
      verify_password B p h = .ok (B.checkpw (utf8Encode (truncate72 p)) h)) := by
  constructor
  · intro hm
    unfold verify_password cryptContextVerify
    rw [if_neg (by simp [hm])]
  · intro hm
    unfold verify_password cryptContextVerify
    rw [if_pos hm]

/-- C7 witness: the amended theorem evaluated on a malformed and on a
well-formed hash string. -/
theorem verify_password_amended_witness :
    (isBcryptHash "notahash" = false →
      verify_password stubBackend [104] "notahash"
        = .error "hash could not be identified") ∧
    (isBcryptHash "notahash" = true →
      verify_password stubBackend [104] "notahash"
        = .ok (stubBackend.checkpw (utf8Encode (truncate72 [104])) "notahash")) :=
  verify_password_amended stubBackend [104] "notahash"

/-! ### Session-table invariants (claim C1) -/

/-- The refresh-token column of the sessions table. -/
def tokensOf (l : List Session) : List JwtToken := l.map Session.refresh_token

/-- All stored refresh-token values are pairwise distinct — the sessions
table's UNIQUE constraint on `refresh_token`. -/
def sessionsDistinct (st : ServerState) : Prop :=
  (tokensOf st.sessions).Pairwise (· ≠ ·)

/-- At most one session row is active for any given refresh-token value. -/
def atMostOneActive (st : ServerState) : Prop :=
  ∀ t : JwtToken,
    (st.sessions.filter (fun s => s.refresh_token == t && s.is_active)).length ≤ 1

/-- `updateFirst` with a column-preserving update leaves the token column
unchanged. -/
theorem tokensOf_updateFirst (p : Session → Bool) (f : Session → Session)
    (hf : ∀ s, (f s).refresh_token = s.refresh_token) (l : List Session) :
    tokensOf (updateFirst p f l) = tokensOf l := by
  induction l with
  | nil => rfl
  | cons x xs ih =>
    unfold updateFirst
    split
    · simp [tokensOf, hf]
    · simpa [tokensOf] using ih

/-- `updateFirst` preserves the row count. -/
theorem updateFirst_length (p : α → Bool) (f : α → α) (l : List α) :
    (updateFirst p f l).length = l.length := by
  induction l with
  | nil => rfl
  | cons x xs ih =>
    unfold updateFirst
    split
    · simp
    · simpa using ih

/-- The image of the row `find?` located is present after `updateFirst`. -/
theorem mem_updateFirst_of_find? (p : α → Bool) (f : α → α) (l : List α)
    (a : α) (h : l.find? p = some a) : f a ∈ updateFirst p f l := by
  induction l with
  | nil => simp at h
  | cons x xs ih =>
    rw [List.find?_cons] at h
    unfold updateFirst
    by_cases hx : p x
    · rw [if_pos hx]
      simp only [hx, cond_true, Option.some.injEq] at h
      subst h
      exact List.mem_cons_self _ _
    · rw [if_neg hx]
      simp only [Bool.not_eq_true] at hx
      simp only [hx, cond_false] at h
      exact List.mem_cons_of_mem _ (ih h)

/-- The login route either leaves the sessions table unchanged or appends
one fresh active row carrying the just-minted refresh token. -/
theorem login_sessions_shape (verifyPw : String → String → Bool) (now : Nat)
    (jti : String) (st : ServerState) (ident password : String)
    (ip ua : Option String) :
    (login verifyPw now jti st ident password ip ua).2.sessions = st.sessions ∨
    ∃ u : User,
      (login verifyPw now jti st ident password ip ua).2.sessions
        = st.sessions
          ++ [{ user_id := u.id, refresh_token := create_refresh_token u.id now jti
                expires_at := now, client_ip := ip, user_agent := ua
                is_active := true, revoked_at := none }] := by
  unfold login
  rcases hu : findUser st.users ident with _ | u
  · exact Or.inl rfl
  · dsimp only
    by_cases hl : u.locked_until.isSome ∧ now < u.locked_until.getD 0
    · rw [if_pos hl]
      exact Or.inl rfl
    · rw [if_neg hl]
      by_cases hw : verifyPw password u.hashed_password = false
      · rw [if_pos hw]
        exact Or.inl rfl
      · rw [if_neg hw]
        exact Or.inr ⟨u, rfl⟩

/-- The refresh route either leaves the sessions table unchanged or
revokes in place (token column untouched) and appends one row carrying the
just-minted refresh token. -/
theorem refresh_sessions_shape (now : Nat) (jti : String) (st : ServerState)
    (token : JwtToken) :
    (refreshRoute now jti st token).2.sessions = st.sessions ∨
    ∃ uid : Nat, ∃ sess : Session,
      (refreshRoute now jti st token).2.sessions
        = updateFirst (fun s => s.refresh_token == token && s.is_active)
            (fun s => { s with is_active := false, revoked_at := some now })
            st.sessions
          ++ [{ user_id := uid, refresh_token := create_refresh_token uid now jti
                expires_at := now, client_ip := sess.client_ip
                user_agent := sess.user_agent, is_active := true
                revoked_at := none }] := by
  unfold refreshRoute
  rcases hv : verify_token token now "refresh" with _ | payload
  · exact Or.inl rfl
  · dsimp only
    rcases hf : st.sessions.find? (fun s => s.refresh_token == token && s.is_active)
      with _ | sess
    · rw [hf]
      exact Or.inl rfl
    · rw [hf]
      exact Or.inr ⟨payload.sub.toNat?.getD 0, sess, rfl⟩

/-- The logout route never changes the token column. -/
theorem logout_tokens_shape (now : Nat) (st : ServerState) (token : JwtToken) :
    tokensOf (logoutRoute now st token).2.sessions = tokensOf st.sessions := by
  unfold logoutRoute
  rcases hf : st.sessions.find? (fun s => s.refresh_token == token) with _ | sess
  · rw [hf]
  · rw [hf]
    dsimp only
    exact tokensOf_updateFirst (fun s => s.refresh_token == token)
      (fun s => { s with is_active := false, revoked_at := some now })
      (fun _ => rfl) st.sessions

/-- Appending a row whose token's `jti` collides with no stored token's
`jti` preserves pairwise distinctness of the token column. -/
theorem pairwise_append_fresh (l : List Session) (x : Session)
    (hdist : (tokensOf l).Pairwise (· ≠ ·))
    (hx : ∀ s ∈ l, s.refresh_token ≠ x.refresh_token) :
    (tokensOf (l ++ [x])).Pairwise (· ≠ ·) := by
  unfold tokensOf
  rw [List.map_append, List.pairwise_append]
  refine ⟨hdist, by simp, ?_⟩
  intro a ha b hb
  simp only [List.map_cons, List.map_nil, List.mem_singleton] at hb
  subst hb
  simp only [tokensOf, List.mem_map] at ha
  obtain ⟨s, hs, rfl⟩ := ha
  exact hx s hs

/-- Every state the auth routes can reach keeps the token column pairwise
distinct. -/
theorem reach_sessionsDistinct (st : ServerState) (h : Reach st) :
    sessionsDistinct st := by
  induction h with
  | init users => simp [sessionsDistinct, tokensOf]
  | login st hr verifyPw now jti ident password ip ua hfresh ih =>
    rcases login_sessions_shape verifyPw now jti st ident password ip ua with
      hs | ⟨u, hs⟩
    · unfold sessionsDistinct
      rw [hs]
      exact ih
    · unfold sessionsDistinct
      rw [hs]
      apply pairwise_append_fresh _ _ ih
      intro s hsmem heq
      exact hfresh s hsmem (by rw [heq]; rfl)
  | refresh st hr now jti token hfresh ih =>
    rcases refresh_sessions_shape now jti st token with hs | ⟨uid, sess, hs⟩
    · unfold sessionsDistinct
      rw [hs]
      exact ih
    · unfold sessionsDistinct
      rw [hs]
      have htok : tokensOf (updateFirst
          (fun s => s.refresh_token == token && s.is_active)
          (fun s => { s with is_active := false, revoked_at := some now })
          st.sessions) = tokensOf st.sessions :=
        tokensOf_updateFirst (fun s => s.refresh_token == token && s.is_active)
          (fun s => { s with is_active := false, revoked_at := some now })
          (fun _ => rfl) st.sessions
      apply pairwise_append_fresh
      · rw [htok]
        exact ih
      · intro s hsmem heq
        have hsmem' : s.refresh_token ∈ tokensOf st.sessions := by
          rw [← htok]
          exact List.mem_map_of_mem _ hsmem
        simp only [tokensOf, List.mem_map] at hsmem'
        obtain ⟨s0, hs0, hts⟩ := hsmem'
        exact hfresh s0 hs0 (by rw [hts, heq]; rfl)
  | logout st hr now token ih =>
    unfold sessionsDistinct
    rw [logout_tokens_shape]
    exact ih

/-- With a pairwise-distinct token column, at most one row — active or not
— carries any given token value. -/
theorem filter_token_le_one (l : List Session) (t : JwtToken)
    (h : (tokensOf l).Pairwise (· ≠ ·)) :
    (l.filter (fun s => s.refresh_token == t && s.is_active)).length ≤ 1 := by
  induction l with
  | nil => simp
  | cons x xs ih =>
    simp only [tokensOf, List.map_cons, List.pairwise_cons] at h
    by_cases hx : x.refresh_token = t
    · have hxs : xs.filter (fun s => s.refresh_token == t && s.is_active) = [] := by
        rw [List.filter_eq_nil_iff]
        intro s hs
        have : x.refresh_token ≠ s.refresh_token :=
          h.1 s.refresh_token (List.mem_map_of_mem _ hs)
        simp only [Bool.and_eq_true, beq_iff_eq, not_and]
        intro hst
        exact absurd (hx.trans hst.symm) this
      rw [List.filter_cons]
      split
      · simp [hxs]
      · simp [hxs]
    · rw [List.filter_cons]
      have : (x.refresh_token == t && x.is_active) = false := by
        simp [hx]
      rw [this]
      simp only [Bool.false_eq_true, if_false]
      exact ih h.2

/-- Reachable states satisfy the claim invariant. -/
theorem reach_atMostOneActive (st : ServerState) (h : Reach st) :
    atMostOneActive st := by
  intro t
  exact filter_token_le_one st.sessions t (reach_sessionsDistinct st h)

/-- `find?` skips an appended suffix only after failing on the prefix. -/
theorem find?_append_none (p : α → Bool) (l1 l2 : List α)
    (h1 : l1.find? p = none) : (l1 ++ l2).find? p = l2.find? p := by
  induction l1 with
  | nil => rfl
  | cons x xs ih =>
    rw [List.find?_cons] at h1
    rcases hx : p x with _ | _
    · rw [List.cons_append, List.find?_cons, hx]
      rw [hx] at h1
      exact ih h1
    · rw [hx] at h1
      simp at h1

/-- After the rotation update, no row holding token `t` is still active:
the first (and, tokens being distinct, only) such row was deactivated. -/
theorem find?_updateFirst_rotation (l : List Session) (t : JwtToken) (now : Nat)
    (hdist : (tokensOf l).Pairwise (· ≠ ·)) :
    (updateFirst (fun s => s.refresh_token == t && s.is_active)
       (fun s => { s with is_active := false, revoked_at := some now })
       l).find? (fun s => s.refresh_token == t && s.is_active) = none := by
  induction l with
  | nil => rfl
  | cons x xs ih =>
    simp only [tokensOf, List.map_cons, List.pairwise_cons] at hdist
    unfold updateFirst
    by_cases hx : (x.refresh_token == t && x.is_active) = true
    · rw [if_pos hx]
      rw [List.find?_cons]
      have hfx : (({ x with is_active := false, revoked_at := some now } : Session).refresh_token
          == t && ({ x with is_active := false, revoked_at := some now } : Session).is_active) = false := by
        simp
      rw [hfx]
      rw [List.find?_eq_none]
      intro s hs
      have hxt : x.refresh_token = t := by
        simp only [Bool.and_eq_true, beq_iff_eq] at hx
        exact hx.1
      have hne : x.refresh_token ≠ s.refresh_token :=
        hdist.1 s.refresh_token (List.mem_map_of_mem _ hs)
      simp only [Bool.and_eq_true, beq_iff_eq, not_and]
      intro hst
      exact absurd (hxt.trans hst.symm) hne
    · rw [if_neg hx]
      rw [List.find?_cons]
      simp only [Bool.not_eq_true] at hx
      rw [hx]
      exact ih hdist.2

/-- C1: in any reachable database state, at most one session row is
active per refresh-token value; a refresh with a cryptographically valid
refresh token whose active session row exists succeeds, and a second
refresh with the very same token is answered with the `SessionExpired`
401 — rotation appended one new row (carrying a fresh token) and marked
the old row inactive with `revoked_at = now`, leaving its token value in
place rather than mutating it. -/
theorem refresh_rotation_single_use
    (st : ServerState) (hreach : Reach st)
    (t : JwtToken) (sess : Session) (now now2 : Nat) (jti jti2 : String)
    (hsig : t.sigValid = true) (htype : t.type = "refresh")
    (hexp : ¬t.exp < now) (hexp2 : ¬t.exp < now2)
    (hfresh : freshJti st jti)
    (hfind : st.sessions.find? (fun s => s.refresh_token == t && s.is_active)
      = some sess) :
    atMostOneActive st ∧
    (refreshRoute now jti st t).1
      = .ok (create_token_pair (t.sub.toNat?.getD 0) now jti) ∧
    (refreshRoute now2 jti2 (refreshRoute now jti st t).2 t).1
      = .error sessionExpiredError ∧
    (refreshRoute now jti st t).2.sessions.length = st.sessions.length + 1 ∧
    (∃ s ∈ (refreshRoute now jti st t).2.sessions,
       s.refresh_token = t ∧ s.is_active = false ∧ s.revoked_at = some now) ∧
    (∀ s ∈ (refreshRoute now jti st t).2.sessions,
       s.refresh_token = t → s.is_active = false) := by
  have hdist : (tokensOf st.sessions).Pairwise (· ≠ ·) :=
    reach_sessionsDistinct st hreach
  have hver : ∀ m : Nat, ¬t.exp < m →
      verify_token t m "refresh"
        = some { sub := t.sub, exp := t.exp, iat := t.iat, type := t.type
                 jti := t.jti } := by
    intro m hm
    unfold verify_token
    rw [if_neg (by simp [hsig])]
    rw [if_neg hm]
    rw [if_neg (by rw [htype]; exact fun h => h rfl)]
  have hroute1 : refreshRoute now jti st t
      = (.ok (create_token_pair (t.sub.toNat?.getD 0) now jti),
         ⟨st.users,
          (updateFirst (fun s => s.refresh_token == t && s.is_active)
            (fun s => { s with is_active := false, revoked_at := some now })
            st.sessions)
          ++ [{ user_id := t.sub.toNat?.getD 0
                refresh_token := create_refresh_token (t.sub.toNat?.getD 0) now jti
                expires_at := now, client_ip := sess.client_ip
                user_agent := sess.user_agent, is_active := true
                revoked_at := none }]⟩) := by
    unfold refreshRoute
    rw [hver now hexp]
    dsimp only
    rw [hfind]
    rfl
  have hsessmem : sess ∈ st.sessions := List.mem_of_find?_eq_some hfind
  have hsesst : sess.refresh_token = t := by
    have := List.find?_some hfind
    simp only [Bool.and_eq_true, beq_iff_eq] at this
    exact this.1
  have htjti : t.jti ≠ some jti := by
    rw [← hsesst]
    exact hfresh sess hsessmem
  have hnone : ((updateFirst (fun s : Session => s.refresh_token == t && s.is_active)
        (fun s : Session => { s with is_active := false, revoked_at := some now })
        st.sessions)
      ++ [({ user_id := t.sub.toNat?.getD 0
             refresh_token := create_refresh_token (t.sub.toNat?.getD 0) now jti
             expires_at := now, client_ip := sess.client_ip
             user_agent := sess.user_agent, is_active := true
             revoked_at := none } : Session)]).find?
        (fun s => s.refresh_token == t && s.is_active) = none := by
    rw [find?_append_none _ _ _ (find?_updateFirst_rotation st.sessions t now hdist)]
    rw [List.find?_eq_none]
    intro x hx
    simp only [List.mem_singleton] at hx
    subst hx
    simp only [Bool.and_eq_true, beq_iff_eq, not_and]
    intro hrt
    exact absurd (congrArg JwtToken.jti hrt.symm)
      (by simpa [create_refresh_token] using htjti)
  refine ⟨reach_atMostOneActive st hreach, ?_, ?_, ?_, ?_, ?_⟩
  · rw [hroute1]
  · rw [hroute1]
    unfold refreshRoute
    rw [hver now2 hexp2]
    dsimp only
    rw [hnone]
  · rw [hroute1]
    simp [updateFirst_length]
  · rw [hroute1]
    refine ⟨{ sess with is_active := false, revoked_at := some now }, ?_, ?_, rfl, rfl⟩
    · exact List.mem_append_left _
        (mem_updateFirst_of_find? _ _ st.sessions sess hfind)
    · exact hsesst
  · rw [hroute1]
    intro x hx hxt
    have hnp := List.find?_eq_none.mp hnone x hx
    simp only [Bool.and_eq_true, beq_iff_eq, not_and, Bool.not_eq_true] at hnp
    exact hnp hxt

/-- C1 witness: a state reached by one successful login; its refresh token
is rotated at time 100 and replayed at time 200. -/
theorem refresh_rotation_single_use_witness :
    (¬(create_refresh_token 1 0 "jA").exp < 100) ∧
    (refreshRoute 100 "jB"
        (login (fun _ _ => true) 0 "jA"
          ⟨[⟨1, "a@b.c", "alice", "H", 0, none, none⟩], []⟩
          "alice" "pw" none none).2
        (create_refresh_token 1 0 "jA")).1
      = .ok (create_token_pair
          ((create_refresh_token 1 0 "jA").sub.toNat?.getD 0) 100 "jB") ∧
    (refreshRoute 200 "jC"
        (refreshRoute 100 "jB"
          (login (fun _ _ => true) 0 "jA"
            ⟨[⟨1, "a@b.c", "alice", "H", 0, none, none⟩], []⟩
            "alice" "pw" none none).2
          (create_refresh_token 1 0 "jA")).2
        (create_refresh_token 1 0 "jA")).1
      = .error sessionExpiredError := by
  have h := refresh_rotation_single_use
    (login (fun _ _ => true) 0 "jA"
      ⟨[⟨1, "a@b.c", "alice", "H", 0, none, none⟩], []⟩
      "alice" "pw" none none).2
    (Reach.login ⟨[⟨1, "a@b.c", "alice", "H", 0, none, none⟩], []⟩
      (Reach.init [⟨1, "a@b.c", "alice", "H", 0, none, none⟩])
      (fun _ _ => true) 0 "jA" "alice" "pw" none none (by decide))
    (create_refresh_token 1 0 "jA")
    ⟨1, create_refresh_token 1 0 "jA", 0, none, none, true, none⟩
    100 200 "jB" "jC" rfl rfl (by decide) (by decide) (by decide) (by decide)
  exact ⟨by decide, h.2.1, h.2.2.1⟩

/-- C9 counterexample: revoking an already-revoked session is not a strict
no-op: the session revoked at time 0 and logged out again at time 5 ends
with `revoked_at = some 5`, so its state — specifically its revocation
timestamp — changes under the second revocation. -/
theorem logout_restamps_revoked_at :
    ((logoutRoute 0
        ⟨[], [⟨1, create_refresh_token 1 0 "j", 0, none, none, true, none⟩]⟩
        (create_refresh_token 1 0 "j")).2.sessions.map Session.revoked_at
      = [some 0]) ∧
    ((logoutRoute 5
        (logoutRoute 0
          ⟨[], [⟨1, create_refresh_token 1 0 "j", 0, none, none, true, none⟩]⟩
          (create_refresh_token 1 0 "j")).2
        (create_refresh_token 1 0 "j")).2.sessions.map Session.revoked_at
      = [some 5]) ∧
    (logoutRoute 5
        (logoutRoute 0
          ⟨[], [⟨1, create_refresh_token 1 0 "j", 0, none, none, true, none⟩]⟩
          (create_refresh_token 1 0 "j")).2
        (create_refresh_token 1 0 "j")).2
      ≠ (logoutRoute 0
          ⟨[], [⟨1, create_refresh_token 1 0 "j", 0, none, none, true, none⟩]⟩
          (create_refresh_token 1 0 "j")).2 := by
  refine ⟨by decide, by decide, by decide⟩

/-- C9 amended: logout is best-effort and never an error — with no
matching session it answers the success message and leaves the state
untouched; logging out an already-revoked session also answers the
success message and keeps the row inactive, but it overwrites the row's
revocation timestamp with the later instant instead of leaving the row
unchanged. -/
theorem logout_best_effort_amended (now : Nat) (st : ServerState)
    (t : JwtToken) (sess : Session)
    (hsome : st.sessions.find? (fun s => s.refresh_token == t) = some sess)
    (hrevoked : sess.is_active = false) :
    (logoutRoute now st t).1 = { message := "로그아웃되었습니다" } ∧
    ((logoutRoute now ⟨st.users, st.sessions.filter
        (fun s => !(s.refresh_token == t))⟩ t).2
      = ⟨st.users, st.sessions.filter (fun s => !(s.refresh_token == t))⟩) ∧
    ({ sess with is_active := false, revoked_at := some now }
        ∈ (logoutRoute now st t).2.sessions) := by
  refine ⟨?_, ?_, ?_⟩
  · unfold logoutRoute
    rcases hf : st.sessions.find? (fun s => s.refresh_token == t) with _ | s0
    · rw [hf]
    · rw [hf]
  · unfold logoutRoute
    have hn : (st.sessions.filter (fun s => !(s.refresh_token == t))).find?
        (fun s => s.refresh_token == t) = none := by
      rw [List.find?_eq_none]
      intro x hx
      have := List.of_mem_filter hx
      simp only [Bool.not_eq_true'] at this
      simp [this]
    rw [hn]
  · unfold logoutRoute
    rw [hsome]
    dsimp only
    exact mem_updateFirst_of_find? _ _ st.sessions sess hsome

/-- C9 witness: the amended theorem applied to a one-session table whose
row is already revoked. -/
theorem logout_best_effort_amended_witness :
    ((logoutRoute 5
        ⟨[], [⟨1, create_refresh_token 1 0 "j", 0, none, none, false, some 0⟩]⟩
        (create_refresh_token 1 0 "j")).1
      = { message := "로그아웃되었습니다" }) ∧
    ({ user_id := 1, refresh_token := create_refresh_token 1 0 "j"
       expires_at := 0, client_ip := none, user_agent := none
       is_active := false, revoked_at := some 5 }
      ∈ (logoutRoute 5
          ⟨[], [⟨1, create_refresh_token 1 0 "j", 0, none, none, false, some 0⟩]⟩
          (create_refresh_token 1 0 "j")).2.sessions) := by
  have h := logout_best_effort_amended 5
    ⟨[], [⟨1, create_refresh_token 1 0 "j", 0, none, none, false, some 0⟩]⟩
    (create_refresh_token 1 0 "j")
    ⟨1, create_refresh_token 1 0 "j", 0, none, none, false, some 0⟩
    (by decide) (by decide)
  exact ⟨h.1, h.2.2⟩

end Moltbot
